import Mathlib

/-!
Verification development for the OPC UA per-connection protocol processor
(`opcua/uaprocessor.py`).

The Python class `UAProcessor` is shallowly embedded as a pure state machine:
its mutable attributes become the fields of `ProcState`, each method becomes a
function returning the updated state together with the messages it wrote to
the socket, and a Python exception (for example an attribute dereference on
`None`) becomes an `Except.error`.  The external codec library (`opcua.ua`) is
modelled by plain data structures carrying exactly the fields the processor
touches; opaque payloads that the processor merely forwards between the codec
and the session facade are modelled as `Nat` tokens.  The external session and
internal-server facades are records of functions, so a run of the processor is
parametric in their behaviour.  The send lock serialises every call of
`send_response`; a run is therefore modelled as a sequence of already
serialised events (`runEvents`), which is exactly the interleaving the mutex
admits.
-/

/-- Message types of the OPC UA TCP header (external `ua.MessageType`). -/
inductive MessageType where
  | Hello
  | Acknowledge
  | Error
  | SecureOpen
  | SecureClose
  | SecureMessage
deriving DecidableEq, Repr

/-- Chunk types of the OPC UA TCP header (external `ua.ChunkType`). -/
inductive ChunkType where
  | Single
  | Intermediate
  | Final
  | Abort
deriving DecidableEq, Repr

/-- The fields of `ua.Header` the processor reads or writes.  A header built
with `ua.Header(msgtype, chunktype)` leaves `ChannelId` at its default 0. -/
structure Header where
  MessageType : MessageType
  ChunkType : ChunkType
  ChannelId : Nat
deriving DecidableEq, Repr

/-- `ua.Hello`: the two buffer-size fields echoed by the processor. -/
structure Hello where
  ReceiveBufferSize : Nat
  SendBufferSize : Nat
deriving DecidableEq, Repr

/-- `ua.Acknowledge` (the source spells the fields `ReceivebufferSize` and
`SendbufferSize`). -/
structure Acknowledge where
  ReceivebufferSize : Nat
  SendbufferSize : Nat
deriving DecidableEq, Repr

/-- Algorithm header (symmetric or asymmetric): the processor only ever
assigns its `TokenId` field, so one structure models both. -/
structure AlgorithmHeader where
  TokenId : Nat
deriving DecidableEq, Repr

/-- `ua.SequenceHeader`. -/
structure SequenceHeader where
  SequenceNumber : Nat
  RequestId : Nat
deriving DecidableEq, Repr

/-- The field of `ua.RequestHeader` the processor uses. -/
structure RequestHeader where
  RequestHandle : Nat
deriving DecidableEq, Repr

/-- `ua.SecurityToken` fields touched by `_open_secure_channel`. -/
structure SecurityToken where
  TokenId : Nat
  ChannelId : Nat
  RevisedLifetime : Nat
  CreatedAt : Nat
deriving DecidableEq, Repr

/-- `ua.OpenSecureChannelResult`, the secure-channel record stored in
`self.channel`.  A fresh `ua.SecurityToken` starts with all fields 0. -/
structure OpenSecureChannelResult where
  SecurityToken : SecurityToken
  ServerNonce : List Nat
deriving DecidableEq, Repr

/-- `ua.SecurityTokenRequestType`. -/
inductive SecurityTokenRequestType where
  | Issue
  | Renew
deriving DecidableEq, Repr

/-- The fields of `ua.OpenSecureChannelParameters` read by the processor. -/
structure OpenSecureChannelParameters where
  RequestType : SecurityTokenRequestType
  RequestedLifetime : Nat
deriving DecidableEq, Repr

/-- `ua.OpenSecureChannelRequest` as decoded in `open_secure_channel`. -/
structure OpenSecureChannelRequest where
  RequestHeader : RequestHeader
  Parameters : OpenSecureChannelParameters
deriving DecidableEq, Repr

/-- `ua.NodeId` restricted to the numeric identifier used for dispatch. -/
structure NodeId where
  Identifier : Nat
deriving DecidableEq, Repr

/- Numeric identifiers of the service request encodings (external
`ua.ObjectIds`); only their mutual distinctness matters for dispatch. -/
namespace ObjectIds

def GetEndpointsRequest_Encoding_DefaultBinary : Nat := 428

def CreateSessionRequest_Encoding_DefaultBinary : Nat := 461

def ActivateSessionRequest_Encoding_DefaultBinary : Nat := 467

def CloseSessionRequest_Encoding_DefaultBinary : Nat := 473

def AddNodesRequest_Encoding_DefaultBinary : Nat := 488

def BrowseRequest_Encoding_DefaultBinary : Nat := 527

def TranslateBrowsePathsToNodeIdsRequest_Encoding_DefaultBinary : Nat := 554

def ReadRequest_Encoding_DefaultBinary : Nat := 631

def WriteRequest_Encoding_DefaultBinary : Nat := 673

def CreateMonitoredItemsRequest_Encoding_DefaultBinary : Nat := 751

def DeleteMonitoredItemsRequest_Encoding_DefaultBinary : Nat := 781

def CreateSubscriptionRequest_Encoding_DefaultBinary : Nat := 787

def PublishRequest_Encoding_DefaultBinary : Nat := 826

def DeleteSubscriptionsRequest_Encoding_DefaultBinary : Nat := 847

end ObjectIds

/- Status codes used by the processor (external `ua.StatusCodes`). -/
namespace StatusCodes

def BadSessionIdInvalid : Nat := 2149908480

def BadNotImplemented : Nat := 2151677952

end StatusCodes

/-- Response bodies the processor can emit.  Payloads produced by the session
or internal-server facades are opaque `Nat` tokens. -/
inductive ResponseBody where
  | OpenSecureChannelResponse (Parameters : OpenSecureChannelResult)
  | CreateSessionResponse (Parameters : Nat)
  | CloseSessionResponse
  | ActivateSessionResponse (Parameters : Nat)
  | ReadResponse (Results : Nat)
  | WriteResponse (Results : Nat)
  | BrowseResponse (Results : Nat)
  | GetEndpointsResponse (Endpoints : Nat)
  | TranslateBrowsePathsToNodeIdsResponse (Results : Nat)
  | AddNodesResponse (Results : Nat)
  | CreateSubscriptionResponse (Parameters : Nat)
  | DeleteSubscriptionsResponse (Results : Nat)
  | CreateMonitoredItemsResponse (Results : Nat)
  | DeleteMonitoredItemsResponse (Results : Nat)
  | PublishResponse (Parameters : Nat)
  | ServiceFault (ServiceResult : Nat)
deriving DecidableEq, Repr

/-- One secure message written to the socket by `send_response`: the header
fields, the token id stamped into the algorithm header, the assigned sequence
number, the request id echoed from the sequence header, the request handle
stamped into the response header, and the response body. -/
structure SentMessage where
  msgtype : MessageType
  chunktype : ChunkType
  channelId : Nat
  tokenId : Nat
  seqNumber : Nat
  requestId : Nat
  requestHandle : Nat
  body : ResponseBody
deriving DecidableEq, Repr

/-- `PublishRequestData`: the envelope of a pending `PublishRequest`. -/
structure PublishRequestData where
  requesthdr : RequestHeader
  algohdr : AlgorithmHeader
  seqhdr : SequenceHeader
deriving DecidableEq, Repr

/-- The session facade (external).  Each service call is a function from the
opaque decoded parameters to an opaque result.  `close_session` and `publish`
only have effects outside the processor and so need no result field. -/
structure Session where
  create_session : Nat → Nat
  activate_session : Nat → Nat
  read : Nat → Nat
  write : Nat → Nat
  browse : Nat → Nat
  translate_browsepaths_to_nodeids : Nat → Nat
  add_nodes : Nat → Nat
  create_subscription : Nat → Nat
  delete_subscriptions : Nat → Nat
  create_monitored_items : Nat → Nat
  delete_monitored_items : Nat → Nat

/-- The internal-server facade (external).  `get_new_channel_id` is the
channel id it hands out at `Issue` time. -/
structure InternalServer where
  create_session : Nat → Session
  get_new_channel_id : Nat
  get_endpoints : Nat → Nat

/-- The mutable attributes of `UAProcessor` (`__init__`).  The connection
name is an opaque token. -/
structure ProcState where
  name : Nat
  session : Option Session
  channel : Option OpenSecureChannelResult
  publishdata_queue : List PublishRequestData
  seq_number : Nat

/-- `UAProcessor.__init__`: no session, no channel, empty publish queue,
sequence counter 1. -/
def initState (name : Nat) : ProcState :=
  { name := name, session := none, channel := none,
    publishdata_queue := [], seq_number := 1 }

/-- A Python exception escaping the processor: dereference of an absent
session or channel, or a codec decoding failure. -/
inductive ProcError where
  | sessionNone
  | channelNone
  | decodeFailed
deriving DecidableEq, Repr

/-- `UAProcessor.send_response`: under the send lock, stamp the request
handle, assign the current sequence counter and increment it, build a header
carrying the channel id, stamp the current token id into the algorithm
header, and write header + algorithm header + sequence header + body.
Dereferencing `self.channel` raises when no channel is set. -/
def send_response (s : ProcState) (requesthandle : Nat) (algohdr : AlgorithmHeader)
    (seqhdr : SequenceHeader) (response : ResponseBody) (msgtype : MessageType) :
    Except ProcError (ProcState × SentMessage) :=
  match s.channel with
  | none => Except.error ProcError.channelNone
  | some channel =>
      Except.ok ({ s with seq_number := s.seq_number + 1 },
        { msgtype := msgtype, chunktype := ChunkType.Single,
          channelId := channel.SecurityToken.ChannelId,
          tokenId := channel.SecurityToken.TokenId,
          seqNumber := s.seq_number,
          requestId := seqhdr.RequestId,
          requestHandle := requesthandle,
          body := response })

/-- `send_response` with the default `msgtype=SecureMessage` of the source,
wrapping the single written message in a list. -/
def send_response1 (s : ProcState) (requesthandle : Nat) (algohdr : AlgorithmHeader)
    (seqhdr : SequenceHeader) (response : ResponseBody) :
    Except ProcError (ProcState × List SentMessage) :=
  match send_response s requesthandle algohdr seqhdr response MessageType.SecureMessage with
  | Except.error e => Except.error e
  | Except.ok (s', m) => Except.ok (s', [m])

/-- `UAProcessor._open_secure_channel`.  `env_now` is the value of
`datetime.now()`; `r1` and `r2` are the byte strings of the two `uuid4()`
draws (each 16 bytes in the external library). -/
def _open_secure_channel (iserver : InternalServer)
    (channel0 : Option OpenSecureChannelResult)
    (params : OpenSecureChannelParameters)
    (env_now : Nat) (r1 r2 : List Nat) :
    Except ProcError OpenSecureChannelResult :=
  let channel1 :=
    if params.RequestType = SecurityTokenRequestType.Issue then
      some { SecurityToken :=
               { TokenId := 13,
                 ChannelId := iserver.get_new_channel_id,
                 RevisedLifetime := params.RequestedLifetime,
                 CreatedAt := 0 },
             ServerNonce := [] }
    else channel0
  match channel1 with
  | none => Except.error ProcError.channelNone
  | some ch =>
      Except.ok
        { SecurityToken :=
            { TokenId := ch.SecurityToken.TokenId + 1,
              ChannelId := ch.SecurityToken.ChannelId,
              RevisedLifetime := params.RequestedLifetime,
              CreatedAt := env_now },
          ServerNonce := r1 ++ r2 }

/-- `UAProcessor.open_secure_channel`: run `_open_secure_channel`, store the
record in `self.channel`, then reply with `msgtype=SecureOpen`. -/
def open_secure_channel (iserver : InternalServer) (s : ProcState)
    (algohdr : AlgorithmHeader) (seqhdr : SequenceHeader)
    (request : OpenSecureChannelRequest)
    (env_now : Nat) (r1 r2 : List Nat) :
    Except ProcError (ProcState × List SentMessage) :=
  match _open_secure_channel iserver s.channel request.Parameters env_now r1 r2 with
  | Except.error e => Except.error e
  | Except.ok channel =>
      match send_response { s with channel := some channel }
          request.RequestHeader.RequestHandle algohdr seqhdr
          (ResponseBody.OpenSecureChannelResponse channel) MessageType.SecureOpen with
      | Except.error e => Except.error e
      | Except.ok (s2, m) => Except.ok (s2, [m])

/-- `UAProcessor.forward_publish_response`: with an empty queue, log and
return; otherwise pop the head slot and send a `PublishResponse` whose
`Parameters` is the notification result. -/
def forward_publish_response (s : ProcState) (result : Nat) :
    Except ProcError (ProcState × List SentMessage) :=
  match s.publishdata_queue with
  | [] => Except.ok (s, [])
  | requestdata :: rest =>
      send_response1 { s with publishdata_queue := rest }
        requestdata.requesthdr.RequestHandle requestdata.algohdr
        requestdata.seqhdr (ResponseBody.PublishResponse result)

/-- The decoded content of a service-request body after the `NodeId` type id
and the `RequestHeader`: the opaque parameter blob, plus the fields decoded
only by particular branches (`deletesubs` by CloseSession, `acks` by
Publish). -/
structure ServiceParams where
  params : Nat
  deletesubs : Bool
  acks : List Int
deriving DecidableEq, Repr

/-- `UAProcessor.process_message`: dispatch on the numeric `NodeId` type id.
Every reply goes through `send_response`; a branch that calls a method of
`self.session` while it is `None` raises (`Except.error`), writing nothing. -/
def process_message (iserver : InternalServer) (s : ProcState)
    (algohdr : AlgorithmHeader) (seqhdr : SequenceHeader)
    (typeid : NodeId) (requesthdr : RequestHeader) (sp : ServiceParams) :
    Except ProcError (ProcState × List SentMessage) :=
  if typeid = NodeId.mk ObjectIds.CreateSessionRequest_Encoding_DefaultBinary then
    send_response1 { s with session := some (iserver.create_session s.name) }
      requesthdr.RequestHandle algohdr seqhdr
      (ResponseBody.CreateSessionResponse ((iserver.create_session s.name).create_session sp.params))
  else if typeid = NodeId.mk ObjectIds.CloseSessionRequest_Encoding_DefaultBinary then
    match s.session with
    | none => Except.error ProcError.sessionNone
    | some _ =>
        send_response1 s requesthdr.RequestHandle algohdr seqhdr
          ResponseBody.CloseSessionResponse
  else if typeid = NodeId.mk ObjectIds.ActivateSessionRequest_Encoding_DefaultBinary then
    send_response1 s requesthdr.RequestHandle algohdr seqhdr
      (ResponseBody.ActivateSessionResponse
        (match s.session with
         | none => StatusCodes.BadSessionIdInvalid
         | some session => session.activate_session sp.params))
  else if typeid = NodeId.mk ObjectIds.ReadRequest_Encoding_DefaultBinary then
    match s.session with
    | none => Except.error ProcError.sessionNone
    | some session =>
        send_response1 s requesthdr.RequestHandle algohdr seqhdr
          (ResponseBody.ReadResponse (session.read sp.params))
  else if typeid = NodeId.mk ObjectIds.WriteRequest_Encoding_DefaultBinary then
    match s.session with
    | none => Except.error ProcError.sessionNone
    | some session =>
        send_response1 s requesthdr.RequestHandle algohdr seqhdr
          (ResponseBody.WriteResponse (session.write sp.params))
  else if typeid = NodeId.mk ObjectIds.BrowseRequest_Encoding_DefaultBinary then
    match s.session with
    | none => Except.error ProcError.sessionNone
    | some session =>
        send_response1 s requesthdr.RequestHandle algohdr seqhdr
          (ResponseBody.BrowseResponse (session.browse sp.params))
  else if typeid = NodeId.mk ObjectIds.GetEndpointsRequest_Encoding_DefaultBinary then
    send_response1 s requesthdr.RequestHandle algohdr seqhdr
      (ResponseBody.GetEndpointsResponse (iserver.get_endpoints sp.params))
  else if typeid = NodeId.mk ObjectIds.TranslateBrowsePathsToNodeIdsRequest_Encoding_DefaultBinary then
    match s.session with
    | none => Except.error ProcError.sessionNone
    | some session =>
        send_response1 s requesthdr.RequestHandle algohdr seqhdr
          (ResponseBody.TranslateBrowsePathsToNodeIdsResponse
            (session.translate_browsepaths_to_nodeids sp.params))
  else if typeid = NodeId.mk ObjectIds.AddNodesRequest_Encoding_DefaultBinary then
    match s.session with
    | none => Except.error ProcError.sessionNone
    | some session =>
        send_response1 s requesthdr.RequestHandle algohdr seqhdr
          (ResponseBody.AddNodesResponse (session.add_nodes sp.params))
  else if typeid = NodeId.mk ObjectIds.CreateSubscriptionRequest_Encoding_DefaultBinary then
    match s.session with
    | none => Except.error ProcError.sessionNone
    | some session =>
        send_response1 s requesthdr.RequestHandle algohdr seqhdr
          (ResponseBody.CreateSubscriptionResponse (session.create_subscription sp.params))
  else if typeid = NodeId.mk ObjectIds.DeleteSubscriptionsRequest_Encoding_DefaultBinary then
    match s.session with
    | none => Except.error ProcError.sessionNone
    | some session =>
        send_response1 s requesthdr.RequestHandle algohdr seqhdr
          (ResponseBody.DeleteSubscriptionsResponse (session.delete_subscriptions sp.params))
  else if typeid = NodeId.mk ObjectIds.CreateMonitoredItemsRequest_Encoding_DefaultBinary then
    match s.session with
    | none => Except.error ProcError.sessionNone
    | some session =>
        send_response1 s requesthdr.RequestHandle algohdr seqhdr
          (ResponseBody.CreateMonitoredItemsResponse (session.create_monitored_items sp.params))
  else if typeid = NodeId.mk ObjectIds.DeleteMonitoredItemsRequest_Encoding_DefaultBinary then
    match s.session with
    | none => Except.error ProcError.sessionNone
    | some session =>
        send_response1 s requesthdr.RequestHandle algohdr seqhdr
          (ResponseBody.DeleteMonitoredItemsResponse (session.delete_monitored_items sp.params))
  else if typeid = NodeId.mk ObjectIds.PublishRequest_Encoding_DefaultBinary then
    match s.session with
    | none => Except.error ProcError.sessionNone
    | some _ =>
        Except.ok ({ s with publishdata_queue := s.publishdata_queue ++
          [{ requesthdr := requesthdr, algohdr := algohdr, seqhdr := seqhdr }] }, [])
  else
    send_response1 s requesthdr.RequestHandle algohdr seqhdr
      (ResponseBody.ServiceFault StatusCodes.BadNotImplemented)

/-- The decoded body of a frame, as the relevant branch of `process_body`
would decode it from the byte buffer. -/
inductive BodyContent where
  | secureOpen (algohdr : AlgorithmHeader) (seqhdr : SequenceHeader)
      (request : OpenSecureChannelRequest)
  | secureMessage (algohdr : AlgorithmHeader) (seqhdr : SequenceHeader)
      (typeid : NodeId) (requesthdr : RequestHeader) (sp : ServiceParams)
  | otherBody

/-- `UAProcessor.process_body`: route a frame by its header's message type.
The returned Bool is the source's return value: `False` tells `loop` to
terminate.  On `SecureClose` with no channel or a mismatched channel id the
source logs and returns `False`; on a matching channel id it falls through
the branch doing nothing and returns `True`. -/
def process_body (iserver : InternalServer) (s : ProcState)
    (header : Header) (body : BodyContent)
    (env_now : Nat) (r1 r2 : List Nat) :
    Except ProcError (ProcState × List SentMessage × Bool) :=
  if header.MessageType = MessageType.SecureOpen then
    match body with
    | BodyContent.secureOpen algohdr seqhdr request =>
        match open_secure_channel iserver s algohdr seqhdr request env_now r1 r2 with
        | Except.error e => Except.error e
        | Except.ok (s1, msgs) => Except.ok (s1, msgs, true)
    | BodyContent.secureMessage _ _ _ _ _ => Except.error ProcError.decodeFailed
    | BodyContent.otherBody => Except.error ProcError.decodeFailed
  else if header.MessageType = MessageType.SecureClose then
    match s.channel with
    | none => Except.ok (s, [], false)
    | some ch =>
        if header.ChannelId ≠ ch.SecurityToken.ChannelId then
          Except.ok (s, [], false)
        else
          Except.ok (s, [], true)
  else if header.MessageType = MessageType.SecureMessage then
    match body with
    | BodyContent.secureMessage algohdr seqhdr typeid requesthdr sp =>
        match process_message iserver s algohdr seqhdr typeid requesthdr sp with
        | Except.error e => Except.error e
        | Except.ok (s1, msgs) => Except.ok (s1, msgs, true)
    | BodyContent.secureOpen _ _ _ => Except.error ProcError.decodeFailed
    | BodyContent.otherBody => Except.error ProcError.decodeFailed
  else
    Except.ok (s, [], true)

/-- Output of the Hello phase of `loop`: either a bare header (the error
path writes only a header) or a header followed by an `Acknowledge`. -/
inductive HandshakeOut where
  | headerOnly (hdr : Header)
  | ackMsg (hdr : Header) (ack : Acknowledge)
deriving DecidableEq, Repr

/-- The Hello phase of `UAProcessor.loop` (lines 28-42): a non-Hello first
frame gets a single Error/Single header and the method returns; a Hello gets
an Acknowledge echoing both buffer sizes.  The Bool records whether the loop
continues into steady state. -/
def loop_handshake (header : Header) (hello : Hello) : List HandshakeOut × Bool :=
  if header.MessageType ≠ MessageType.Hello then
    ([HandshakeOut.headerOnly
        { MessageType := MessageType.Error, ChunkType := ChunkType.Single, ChannelId := 0 }],
      false)
  else
    ([HandshakeOut.ackMsg
        { MessageType := MessageType.Acknowledge, ChunkType := ChunkType.Single, ChannelId := 0 }
        { ReceivebufferSize := hello.ReceiveBufferSize,
          SendbufferSize := hello.SendBufferSize }],
      true)

/-- The environment of one received frame: the `datetime.now()` value and the
two `uuid4().bytes` draws consumed if the frame opens or renews a channel. -/
structure EventEnv where
  env_now : Nat
  r1 : List Nat
  r2 : List Nat

/-- One serialised event of the steady-state phase: a frame received by the
read thread, or an invocation of `forward_publish_response` by the
subscription engine (serialised by the send lock). -/
inductive ProcEvent where
  | recv (header : Header) (body : BodyContent) (env : EventEnv)
  | forward (result : Nat)

/-- The steady-state phase of `UAProcessor.loop`: process events in order;
stop on an Error-typed frame, when `process_body` returns `False`, on an
escaped exception, or at the end of the event list (end of stream).
Returns the final state and all messages written to the socket. -/
def runEvents (iserver : InternalServer) : ProcState → List ProcEvent → ProcState × List SentMessage
  | s, [] => (s, [])
  | s, ProcEvent.recv header body env :: rest =>
      if header.MessageType = MessageType.Error then (s, [])
      else
        match process_body iserver s header body env.env_now env.r1 env.r2 with
        | Except.error _ => (s, [])
        | Except.ok (s1, msgs, true) =>
            ((runEvents iserver s1 rest).1, msgs ++ (runEvents iserver s1 rest).2)
        | Except.ok (s1, msgs, false) => (s1, msgs)
  | s, ProcEvent.forward result :: rest =>
      match forward_publish_response s result with
      | Except.error _ => (s, [])
      | Except.ok (s1, msgs) =>
          ((runEvents iserver s1 rest).1, msgs ++ (runEvents iserver s1 rest).2)

/-- The messages `msgs` carry consecutive sequence numbers starting at
`base`, and `final` is the counter value afterwards. -/
def SeqOk (base : Nat) (msgs : List SentMessage) (final : Nat) : Prop :=
  msgs.map (fun m => m.seqNumber) = List.range' base msgs.length ∧
  final = base + msgs.length

theorem range_one_succ (a n : Nat) :
    List.range' a (n + 1) = a :: List.range' (a + 1) n := rfl

theorem range_one_append (a m n : Nat) :
    List.range' a m ++ List.range' (a + m) n = List.range' a (m + n) := by
  induction m generalizing a with
  | zero => simp [List.range']
  | succ k ih =>
      rw [range_one_succ, Nat.succ_add, range_one_succ, List.cons_append]
      have h : a + (k + 1) = a + 1 + k := by omega
      rw [h, ih (a + 1)]

theorem SeqOk_nil (b : Nat) : SeqOk b [] b := by
  constructor
  · rfl
  · simp

theorem SeqOk_append {a b c : Nat} {l1 l2 : List SentMessage}
    (h1 : SeqOk a l1 b) (h2 : SeqOk b l2 c) : SeqOk a (l1 ++ l2) c := by
  obtain ⟨m1, f1⟩ := h1
  obtain ⟨m2, f2⟩ := h2
  constructor
  · rw [List.map_append, m1, m2, f1, List.length_append, range_one_append]
  · rw [List.length_append, f2, f1]; omega

theorem send_response_seq (s : ProcState) (rh : Nat) (a : AlgorithmHeader)
    (q : SequenceHeader) (r : ResponseBody) (mt : MessageType)
    (s' : ProcState) (m : SentMessage)
    (hok : send_response s rh a q r mt = Except.ok (s', m)) :
    m.seqNumber = s.seq_number ∧ s'.seq_number = s.seq_number + 1 := by
  cases hch : s.channel with
  | none => rw [send_response, hch] at hok; cases hok
  | some ch =>
      rw [send_response, hch] at hok
      cases hok
      exact ⟨rfl, rfl⟩

theorem send_response1_seq (s : ProcState) (rh : Nat) (a : AlgorithmHeader)
    (q : SequenceHeader) (r : ResponseBody)
    (s' : ProcState) (msgs : List SentMessage)
    (hok : send_response1 s rh a q r = Except.ok (s', msgs)) :
    SeqOk s.seq_number msgs s'.seq_number := by
  rw [send_response1] at hok
  cases hsr : send_response s rh a q r MessageType.SecureMessage with
  | error e => rw [hsr] at hok; cases hok
  | ok p =>
      rw [hsr] at hok
      obtain ⟨s1, m⟩ := p
      obtain ⟨h1, h2⟩ := send_response_seq s rh a q r MessageType.SecureMessage s1 m hsr
      cases hok
      constructor
      · simp [h1, List.range']
      · simpa using h2

theorem open_secure_channel_seq (iserver : InternalServer) (s : ProcState)
    (a : AlgorithmHeader) (q : SequenceHeader) (request : OpenSecureChannelRequest)
    (env_now : Nat) (r1 r2 : List Nat)
    (s' : ProcState) (msgs : List SentMessage)
    (hok : open_secure_channel iserver s a q request env_now r1 r2 = Except.ok (s', msgs)) :
    SeqOk s.seq_number msgs s'.seq_number := by
  rw [open_secure_channel.eq_def] at hok
  split at hok
  · cases hok
  · rename_i channel heq
    split at hok
    · cases hok
    · rename_i s2 m hsr
      obtain ⟨h1, h2⟩ := send_response_seq _ _ _ _ _ _ _ _ hsr
      cases hok
      constructor
      · simp only [List.map_cons, List.map_nil]
        rw [h1]
        rfl
      · exact h2

set_option maxHeartbeats 2000000 in
theorem process_message_seq (iserver : InternalServer) (s : ProcState)
    (a : AlgorithmHeader) (q : SequenceHeader) (typeid : NodeId)
    (rh : RequestHeader) (sp : ServiceParams)
    (s' : ProcState) (msgs : List SentMessage)
    (hok : process_message iserver s a q typeid rh sp = Except.ok (s', msgs)) :
    SeqOk s.seq_number msgs s'.seq_number := by
  rw [process_message.eq_def] at hok
  by_cases h1 : typeid = NodeId.mk ObjectIds.CreateSessionRequest_Encoding_DefaultBinary
  · rw [if_pos h1] at hok
    have hh := send_response1_seq _ _ _ _ _ _ _ hok
    exact hh
  rw [if_neg h1] at hok
  by_cases h2 : typeid = NodeId.mk ObjectIds.CloseSessionRequest_Encoding_DefaultBinary
  · rw [if_pos h2] at hok
    cases hs : s.session with
    | none => rw [hs] at hok; cases hok
    | some sess =>
        rw [hs] at hok
        have hh := send_response1_seq _ _ _ _ _ _ _ hok
        exact hh
  rw [if_neg h2] at hok
  by_cases h3 : typeid = NodeId.mk ObjectIds.ActivateSessionRequest_Encoding_DefaultBinary
  · rw [if_pos h3] at hok
    have hh := send_response1_seq _ _ _ _ _ _ _ hok
    exact hh
  rw [if_neg h3] at hok
  by_cases h4 : typeid = NodeId.mk ObjectIds.ReadRequest_Encoding_DefaultBinary
  · rw [if_pos h4] at hok
    cases hs : s.session with
    | none => rw [hs] at hok; cases hok
    | some sess =>
        rw [hs] at hok
        have hh := send_response1_seq _ _ _ _ _ _ _ hok
        exact hh
  rw [if_neg h4] at hok
  by_cases h5 : typeid = NodeId.mk ObjectIds.WriteRequest_Encoding_DefaultBinary
  · rw [if_pos h5] at hok
    cases hs : s.session with
    | none => rw [hs] at hok; cases hok
    | some sess =>
        rw [hs] at hok
        have hh := send_response1_seq _ _ _ _ _ _ _ hok
        exact hh
  rw [if_neg h5] at hok
  by_cases h6 : typeid = NodeId.mk ObjectIds.BrowseRequest_Encoding_DefaultBinary
  · rw [if_pos h6] at hok
    cases hs : s.session with
    | none => rw [hs] at hok; cases hok
    | some sess =>
        rw [hs] at hok
        have hh := send_response1_seq _ _ _ _ _ _ _ hok
        exact hh
  rw [if_neg h6] at hok
  by_cases h7 : typeid = NodeId.mk ObjectIds.GetEndpointsRequest_Encoding_DefaultBinary
  · rw [if_pos h7] at hok
    have hh := send_response1_seq _ _ _ _ _ _ _ hok
    exact hh
  rw [if_neg h7] at hok
  by_cases h8 : typeid = NodeId.mk ObjectIds.TranslateBrowsePathsToNodeIdsRequest_Encoding_DefaultBinary
  · rw [if_pos h8] at hok
    cases hs : s.session with
    | none => rw [hs] at hok; cases hok
    | some sess =>
        rw [hs] at hok
        have hh := send_response1_seq _ _ _ _ _ _ _ hok
        exact hh
  rw [if_neg h8] at hok
  by_cases h9 : typeid = NodeId.mk ObjectIds.AddNodesRequest_Encoding_DefaultBinary
  · rw [if_pos h9] at hok
    cases hs : s.session with
    | none => rw [hs] at hok; cases hok
    | some sess =>
        rw [hs] at hok
        have hh := send_response1_seq _ _ _ _ _ _ _ hok
        exact hh
  rw [if_neg h9] at hok
  by_cases h10 : typeid = NodeId.mk ObjectIds.CreateSubscriptionRequest_Encoding_DefaultBinary
  · rw [if_pos h10] at hok
    cases hs : s.session with
    | none => rw [hs] at hok; cases hok
    | some sess =>
        rw [hs] at hok
        have hh := send_response1_seq _ _ _ _ _ _ _ hok
        exact hh
  rw [if_neg h10] at hok
  by_cases h11 : typeid = NodeId.mk ObjectIds.DeleteSubscriptionsRequest_Encoding_DefaultBinary
  · rw [if_pos h11] at hok
    cases hs : s.session with
    | none => rw [hs] at hok; cases hok
    | some sess =>
        rw [hs] at hok
        have hh := send_response1_seq _ _ _ _ _ _ _ hok
        exact hh
  rw [if_neg h11] at hok
  by_cases h12 : typeid = NodeId.mk ObjectIds.CreateMonitoredItemsRequest_Encoding_DefaultBinary
  · rw [if_pos h12] at hok
    cases hs : s.session with
    | none => rw [hs] at hok; cases hok
    | some sess =>
        rw [hs] at hok
        have hh := send_response1_seq _ _ _ _ _ _ _ hok
        exact hh
  rw [if_neg h12] at hok
  by_cases h13 : typeid = NodeId.mk ObjectIds.DeleteMonitoredItemsRequest_Encoding_DefaultBinary
  · rw [if_pos h13] at hok
    cases hs : s.session with
    | none => rw [hs] at hok; cases hok
    | some sess =>
        rw [hs] at hok
        have hh := send_response1_seq _ _ _ _ _ _ _ hok
        exact hh
  rw [if_neg h13] at hok
  by_cases h14 : typeid = NodeId.mk ObjectIds.PublishRequest_Encoding_DefaultBinary
  · rw [if_pos h14] at hok
    cases hs : s.session with
    | none => rw [hs] at hok; cases hok
    | some sess =>
        rw [hs] at hok
        cases hok
        exact SeqOk_nil _
  rw [if_neg h14] at hok
  have hh := send_response1_seq _ _ _ _ _ _ _ hok
  exact hh

theorem forward_publish_response_seq (s : ProcState) (result : Nat)
    (s' : ProcState) (msgs : List SentMessage)
    (hok : forward_publish_response s result = Except.ok (s', msgs)) :
    SeqOk s.seq_number msgs s'.seq_number := by
  rw [forward_publish_response.eq_def] at hok
  split at hok
  · cases hok
    exact SeqOk_nil _
  · have hh := send_response1_seq _ _ _ _ _ _ _ hok
    exact hh

theorem process_body_seq (iserver : InternalServer) (s : ProcState)
    (header : Header) (body : BodyContent) (env_now : Nat) (r1 r2 : List Nat)
    (s' : ProcState) (msgs : List SentMessage) (cont : Bool)
    (hok : process_body iserver s header body env_now r1 r2 = Except.ok (s', msgs, cont)) :
    SeqOk s.seq_number msgs s'.seq_number := by
  rw [process_body.eq_def] at hok
  by_cases h1 : header.MessageType = MessageType.SecureOpen
  · rw [if_pos h1] at hok
    cases body with
    | secureOpen a2 q2 request =>
        simp only [] at hok
        cases hoc : open_secure_channel iserver s a2 q2 request env_now r1 r2 with
        | error e => rw [hoc] at hok; cases hok
        | ok p =>
            obtain ⟨s1, msgs1⟩ := p
            have h := open_secure_channel_seq _ _ _ _ _ _ _ _ _ _ hoc
            rw [hoc] at hok
            cases hok
            exact h
    | secureMessage a2 q2 tid rh2 sp2 => cases hok
    | otherBody => cases hok
  rw [if_neg h1] at hok
  by_cases h2 : header.MessageType = MessageType.SecureClose
  · rw [if_pos h2] at hok
    cases hch : s.channel with
    | none => rw [hch] at hok; cases hok; exact SeqOk_nil _
    | some ch =>
        rw [hch] at hok
        simp only [] at hok
        by_cases hcid : header.ChannelId ≠ ch.SecurityToken.ChannelId
        · rw [if_pos hcid] at hok
          cases hok
          exact SeqOk_nil _
        · rw [if_neg hcid] at hok
          cases hok
          exact SeqOk_nil _
  rw [if_neg h2] at hok
  by_cases h3 : header.MessageType = MessageType.SecureMessage
  · rw [if_pos h3] at hok
    cases body with
    | secureOpen a2 q2 request => cases hok
    | secureMessage a2 q2 tid rh2 sp2 =>
        simp only [] at hok
        cases hpm : process_message iserver s a2 q2 tid rh2 sp2 with
        | error e => rw [hpm] at hok; cases hok
        | ok p =>
            obtain ⟨s1, msgs1⟩ := p
            have h := process_message_seq _ _ _ _ _ _ _ _ _ hpm
            rw [hpm] at hok
            cases hok
            exact h
    | otherBody => cases hok
  rw [if_neg h3] at hok
  cases hok
  exact SeqOk_nil _

theorem runEvents_seq (iserver : InternalServer) (evs : List ProcEvent) :
    ∀ s : ProcState,
      SeqOk s.seq_number (runEvents iserver s evs).2 (runEvents iserver s evs).1.seq_number := by
  induction evs with
  | nil => intro s; exact SeqOk_nil _
  | cons ev rest ih =>
      intro s
      cases ev with
      | recv header body env =>
          rw [runEvents]
          split
          · exact SeqOk_nil _
          · split
            · exact SeqOk_nil _
            · rename_i s1 msgs1 hpb
              exact SeqOk_append
                (process_body_seq iserver s header body env.env_now env.r1 env.r2 s1 msgs1 true hpb)
                (ih s1)
            · rename_i s1 msgs1 hpb
              exact process_body_seq iserver s header body env.env_now env.r1 env.r2 s1 msgs1 false hpb
      | forward result =>
          rw [runEvents]
          split
          · exact SeqOk_nil _
          · rename_i s1 msgs1 hf
            exact SeqOk_append (forward_publish_response_seq s result s1 msgs1 hf) (ih s1)

/-- C1: in every run of the processor the outgoing sequence numbers form the
sequence 1, 2, 3, ...: the counter starts at 1 (`initState`), each
`send_response` call (serialised by the send lock, hence the event list)
assigns the current counter and increments it by exactly 1, so the messages
of the whole run - secure-open replies, service replies, service faults and
publish responses alike - are numbered consecutively from 1 with no gaps and
no duplicates. -/
theorem outgoing_seq_numbers_consecutive_from_one (iserver : InternalServer)
    (name : Nat) (evs : List ProcEvent) :
    (runEvents iserver (initState name) evs).2.map (fun m => m.seqNumber) =
      List.range' 1 (runEvents iserver (initState name) evs).2.length :=
  (runEvents_seq iserver evs (initState name)).1

/-- C3: the first frame of a connection: a non-Hello message type makes the
processor write a single Error-type header with Single chunk type (no
Acknowledge) and terminate; a Hello makes it reply with an Acknowledge whose
buffer-size fields echo the received Hello unmodified. -/
theorem first_frame_hello_ack_or_error (header : Header) (hello : Hello) :
    (header.MessageType ≠ MessageType.Hello →
      loop_handshake header hello =
        ([HandshakeOut.headerOnly
            { MessageType := MessageType.Error, ChunkType := ChunkType.Single,
              ChannelId := 0 }], false)) ∧
    (header.MessageType = MessageType.Hello →
      loop_handshake header hello =
        ([HandshakeOut.ackMsg
            { MessageType := MessageType.Acknowledge, ChunkType := ChunkType.Single,
              ChannelId := 0 }
            { ReceivebufferSize := hello.ReceiveBufferSize,
              SendbufferSize := hello.SendBufferSize }], true)) := by
  constructor
  · intro h
    rw [loop_handshake, if_pos h]
  · intro h
    rw [loop_handshake, if_neg (fun hne => hne h)]

/-- C3 witness: the two cases of `first_frame_hello_ack_or_error` at concrete
inputs (a SecureOpen first frame, and a Hello with 65536-byte buffers). -/
theorem first_frame_hello_ack_or_error_witness :
    loop_handshake
        { MessageType := MessageType.SecureOpen, ChunkType := ChunkType.Single, ChannelId := 0 }
        { ReceiveBufferSize := 65536, SendBufferSize := 65536 } =
      ([HandshakeOut.headerOnly
          { MessageType := MessageType.Error, ChunkType := ChunkType.Single,
            ChannelId := 0 }], false) ∧
    loop_handshake
        { MessageType := MessageType.Hello, ChunkType := ChunkType.Single, ChannelId := 0 }
        { ReceiveBufferSize := 65536, SendBufferSize := 65536 } =
      ([HandshakeOut.ackMsg
          { MessageType := MessageType.Acknowledge, ChunkType := ChunkType.Single,
            ChannelId := 0 }
          { ReceivebufferSize := 65536, SendbufferSize := 65536 }], true) :=
  ⟨(first_frame_hello_ack_or_error _ _).1 (by decide),
   (first_frame_hello_ack_or_error _ _).2 rfl⟩

/-- A concrete session facade used for concrete runs: each service returns a
distinct token derived from its parameters. -/
def sampleSession : Session :=
  { create_session := fun p => p + 1000,
    activate_session := fun p => p + 2000,
    read := fun p => p + 3000,
    write := fun p => p + 4000,
    browse := fun p => p + 5000,
    translate_browsepaths_to_nodeids := fun p => p + 6000,
    add_nodes := fun p => p + 7000,
    create_subscription := fun p => p + 8000,
    delete_subscriptions := fun p => p + 9000,
    create_monitored_items := fun p => p + 10000,
    delete_monitored_items := fun p => p + 11000 }

/-- A concrete internal server: hands out channel id 4 and `sampleSession`. -/
def sampleIServer : InternalServer :=
  { create_session := fun _ => sampleSession,
    get_new_channel_id := 4,
    get_endpoints := fun p => p + 12000 }

/-- A concrete frame environment: time 99, two 16-byte uuid draws. -/
def env0 : EventEnv :=
  { env_now := 99, r1 := List.replicate 16 7, r2 := List.replicate 16 8 }

/-- Default decoded service parameters for concrete runs. -/
def spDefault : ServiceParams := { params := 0, deletesubs := true, acks := [] }

/-- A SecureOpen frame: Issue, requested lifetime 600000, request handle 5. -/
def openEv : ProcEvent :=
  ProcEvent.recv
    { MessageType := MessageType.SecureOpen, ChunkType := ChunkType.Single, ChannelId := 0 }
    (BodyContent.secureOpen { TokenId := 0 } { SequenceNumber := 0, RequestId := 1 }
      { RequestHeader := { RequestHandle := 5 },
        Parameters := { RequestType := SecurityTokenRequestType.Issue,
                        RequestedLifetime := 600000 } })
    env0

/-- A SecureMessage frame carrying the service request with numeric type id
`tid`, request handle `handle` and request id `rid`. -/
def svcEv (tid handle rid : Nat) : ProcEvent :=
  ProcEvent.recv
    { MessageType := MessageType.SecureMessage, ChunkType := ChunkType.Single, ChannelId := 4 }
    (BodyContent.secureMessage { TokenId := 0 } { SequenceNumber := 0, RequestId := rid }
      { Identifier := tid } { RequestHandle := handle } spDefault)
    env0

/-- The frames of scenario S4: channel open, then CreateSession(7),
ActivateSession(8), CloseSession(9). -/
def eventsS4 : List ProcEvent :=
  [openEv,
   svcEv ObjectIds.CreateSessionRequest_Encoding_DefaultBinary 7 2,
   svcEv ObjectIds.ActivateSessionRequest_Encoding_DefaultBinary 8 3,
   svcEv ObjectIds.CloseSessionRequest_Encoding_DefaultBinary 9 4]

/-- C8 counterexample: in the S4 scenario (channel open with request handle 5,
then CreateSession(7), ActivateSession(8), CloseSession(9)), the service
replies do NOT carry sequence numbers 1, 2, 3: the SecureOpen reply already
consumed sequence number 1, so dropping it from the trace leaves replies with
handles 7, 8, 9 whose sequence numbers differ from the claimed 1, 2, 3. -/
theorem session_scenario_claimed_seqs_false :
    ¬ ((runEvents sampleIServer (initState 0) eventsS4).2.map
        (fun m => (m.requestHandle, m.seqNumber))).drop 1 = [(7, 1), (8, 2), (9, 3)] := by
  decide

/-- C8 amended: in the S4 scenario the replies are the SecureOpen reply with
handle 5 and sequence number 1, then CreateSessionResponse(handle 7, seq 2),
ActivateSessionResponse(handle 8, seq 3), CloseSessionResponse(handle 9,
seq 4): the session replies carry handles 7, 8, 9 and sequence numbers
2, 3, 4 because the shared counter starts at 1 and the channel-open reply
takes the first value. -/
theorem session_scenario_handles_and_seqs :
    (runEvents sampleIServer (initState 0) eventsS4).2.map
      (fun m => (m.requestHandle, m.seqNumber)) = [(5, 1), (7, 2), (8, 3), (9, 4)] := by
  decide

/-- The state holding an open channel with id 4 (used for SecureClose cases). -/
def sampleChannel : OpenSecureChannelResult :=
  { SecurityToken :=
      { TokenId := 14, ChannelId := 4, RevisedLifetime := 600000, CreatedAt := 99 },
    ServerNonce := List.replicate 16 7 ++ List.replicate 16 8 }

/-- A steady-state processor state with an open channel and a bound session. -/
def chanState : ProcState :=
  { name := 0, session := some sampleSession, channel := some sampleChannel,
    publishdata_queue := [], seq_number := 2 }

/-- C2: what `process_body` actually does on SecureClose.  With a matching
channel id it leaves the state untouched, sends nothing, and returns True, so
the read loop CONTINUES and the record is NOT dropped - contrary to the
claim, which requires dropping the record and terminating.  With a
mismatching channel id it leaves the state untouched, sends nothing, and
returns False (loop terminates), as the claim states for that half. -/
theorem secure_close_match_keeps_channel_and_continues :
    process_body sampleIServer chanState
        { MessageType := MessageType.SecureClose, ChunkType := ChunkType.Single, ChannelId := 4 }
        BodyContent.otherBody 0 [] [] = Except.ok (chanState, [], true) ∧
    process_body sampleIServer chanState
        { MessageType := MessageType.SecureClose, ChunkType := ChunkType.Single, ChannelId := 5 }
        BodyContent.otherBody 0 [] [] = Except.ok (chanState, [], false) :=
  ⟨rfl, rfl⟩

/-- The frames of scenario S5 up to connection loss: channel open,
CreateSession(7), then one pending PublishRequest with handle 20. -/
def eventsS9 : List ProcEvent :=
  [openEv,
   svcEv ObjectIds.CreateSessionRequest_Encoding_DefaultBinary 7 2,
   svcEv ObjectIds.PublishRequest_Encoding_DefaultBinary 20 5]

/-- C9: after the read loop has exited (end of the event list - connection
loss), the processor state still holds the channel and the undrained publish
queue, and a late `forward_publish_response` is NOT a no-op: it pops the slot
and writes a PublishResponse to the (closed) stream - there is no closed
flag anywhere in the state for the send path to check. -/
theorem late_publish_callback_still_writes :
    Except.map (fun p => p.2)
        (forward_publish_response (runEvents sampleIServer (initState 0) eventsS9).1 101) =
      Except.ok [{ msgtype := MessageType.SecureMessage, chunktype := ChunkType.Single,
                   channelId := 4, tokenId := 14, seqNumber := 3, requestId := 5,
                   requestHandle := 20, body := ResponseBody.PublishResponse 101 }] ∧
    (runEvents sampleIServer (initState 0) eventsS9).1.channel ≠ none ∧
    (runEvents sampleIServer (initState 0) eventsS9).1.publishdata_queue ≠ [] := by
  refine ⟨rfl, by decide, by decide⟩

/-- The frames and callbacks of scenario S5: channel open, CreateSession(7),
PublishRequest(handle 20), PublishRequest(handle 21), then notifications N1
(payload 101) and N2 (payload 102) delivered by the subscription engine. -/
def eventsS5 : List ProcEvent :=
  [openEv,
   svcEv ObjectIds.CreateSessionRequest_Encoding_DefaultBinary 7 2,
   svcEv ObjectIds.PublishRequest_Encoding_DefaultBinary 20 5,
   svcEv ObjectIds.PublishRequest_Encoding_DefaultBinary 21 6,
   ProcEvent.forward 101,
   ProcEvent.forward 102]

/-- C5: publish responses consume publish slots in FIFO order.  First
conjunct: whenever the queue is non-empty, `forward_publish_response` pops
exactly the head slot (the oldest outstanding PublishRequest) and emits a
PublishResponse carrying that slot's request handle and the notification
result as Parameters, with the next sequence number.  Second conjunct
(scenario S5): with outstanding PublishRequests of handles 20 then 21 and
notifications 101 then 102, the two publish replies are
(handle 20, payload 101) then (handle 21, payload 102) with successive
sequence numbers 3 and 4. -/
theorem publish_responses_fifo_pairing :
    (∀ (s : ProcState) (result : Nat) (d : PublishRequestData)
        (rest : List PublishRequestData) (ch : OpenSecureChannelResult),
      s.publishdata_queue = d :: rest → s.channel = some ch →
      forward_publish_response s result =
        Except.ok ({ s with publishdata_queue := rest, seq_number := s.seq_number + 1 },
          [{ msgtype := MessageType.SecureMessage, chunktype := ChunkType.Single,
             channelId := ch.SecurityToken.ChannelId, tokenId := ch.SecurityToken.TokenId,
             seqNumber := s.seq_number, requestId := d.seqhdr.RequestId,
             requestHandle := d.requesthdr.RequestHandle,
             body := ResponseBody.PublishResponse result }])) ∧
    ((runEvents sampleIServer (initState 0) eventsS5).2.map
        (fun m => (m.requestHandle, m.seqNumber, m.body))).drop 2 =
      [(20, 3, ResponseBody.PublishResponse 101),
       (21, 4, ResponseBody.PublishResponse 102)] := by
  constructor
  · intro s result d rest ch hq hch
    rw [forward_publish_response.eq_def, hq]
    simp only [send_response1, send_response, hch]
  · decide

/-- A state with one pending publish slot of handle 20 and request id 5. -/
def slot20 : PublishRequestData :=
  { requesthdr := { RequestHandle := 20 }, algohdr := { TokenId := 0 },
    seqhdr := { SequenceNumber := 0, RequestId := 5 } }

/-- A steady-state processor state with one queued publish slot. -/
def queuedState : ProcState :=
  { name := 0, session := some sampleSession, channel := some sampleChannel,
    publishdata_queue := [slot20], seq_number := 3 }

/-- The state expected after popping the single slot of `queuedState`. -/
def poppedState : ProcState :=
  { queuedState with publishdata_queue := [], seq_number := queuedState.seq_number + 1 }

/-- C5 witness: the FIFO pop of `publish_responses_fifo_pairing` at the
concrete state with one queued slot of handle 20 and counter 3. -/
theorem publish_responses_fifo_pairing_witness :
    forward_publish_response queuedState 101 =
      Except.ok (poppedState,
        [{ msgtype := MessageType.SecureMessage, chunktype := ChunkType.Single,
           channelId := sampleChannel.SecurityToken.ChannelId,
           tokenId := sampleChannel.SecurityToken.TokenId,
           seqNumber := queuedState.seq_number, requestId := slot20.seqhdr.RequestId,
           requestHandle := slot20.requesthdr.RequestHandle,
           body := ResponseBody.PublishResponse 101 }]) :=
  publish_responses_fifo_pairing.1 queuedState 101 slot20 [] sampleChannel rfl rfl

/-- C4: publish-queue accounting.  First conjunct: a received PublishRequest
(with a bound session) pushes exactly one slot capturing the request header,
algorithm header and sequence header, and sends no reply at that time.
Second conjunct: a `forward_publish_response` invocation with a non-empty
queue pops exactly one slot (the head).  Third conjunct: with an empty queue
the call returns with no reply sent and the state unchanged.  Hence the
queue length always equals pushes minus pops. -/
theorem publish_queue_push_pop :
    (∀ (iserver : InternalServer) (s : ProcState) (a : AlgorithmHeader)
        (q : SequenceHeader) (rh : RequestHeader) (sp : ServiceParams) (sess : Session),
      s.session = some sess →
      process_message iserver s a q
          (NodeId.mk ObjectIds.PublishRequest_Encoding_DefaultBinary) rh sp =
        Except.ok ({ s with publishdata_queue := s.publishdata_queue ++
            [{ requesthdr := rh, algohdr := a, seqhdr := q }] }, [])) ∧
    (∀ (s : ProcState) (result : Nat) (d : PublishRequestData)
        (rest : List PublishRequestData) (ch : OpenSecureChannelResult),
      s.publishdata_queue = d :: rest → s.channel = some ch →
      ∃ s' m, forward_publish_response s result = Except.ok (s', [m]) ∧
        s'.publishdata_queue = rest) ∧
    (∀ (s : ProcState) (result : Nat), s.publishdata_queue = [] →
      forward_publish_response s result = Except.ok (s, [])) := by
  refine ⟨?_, ?_, ?_⟩
  · intro iserver s a q rh sp sess hs
    rw [process_message.eq_def]
    rw [if_neg (by decide), if_neg (by decide), if_neg (by decide), if_neg (by decide),
        if_neg (by decide), if_neg (by decide), if_neg (by decide), if_neg (by decide),
        if_neg (by decide), if_neg (by decide), if_neg (by decide), if_neg (by decide),
        if_neg (by decide), if_pos rfl, hs]
  · intro s result d rest ch hq hch
    refine ⟨{ s with publishdata_queue := rest, seq_number := s.seq_number + 1 },
      { msgtype := MessageType.SecureMessage, chunktype := ChunkType.Single,
        channelId := ch.SecurityToken.ChannelId, tokenId := ch.SecurityToken.TokenId,
        seqNumber := s.seq_number, requestId := d.seqhdr.RequestId,
        requestHandle := d.requesthdr.RequestHandle,
        body := ResponseBody.PublishResponse result }, ?_, rfl⟩
    rw [forward_publish_response.eq_def, hq]
    simp only [send_response1, send_response, hch]
  · intro s result hq
    rw [forward_publish_response.eq_def, hq]

/-- A steady-state processor state with a bound session, an open channel and
an empty publish queue. -/
def emptyQueueState : ProcState :=
  { name := 0, session := some sampleSession, channel := some sampleChannel,
    publishdata_queue := [], seq_number := 1 }

/-- C4 witness: the three conjuncts of `publish_queue_push_pop` at concrete
states - a publish request pushed onto an empty queue, a pop from the
one-slot queue, and a forward call on the empty queue. -/
theorem publish_queue_push_pop_witness :
    process_message sampleIServer emptyQueueState { TokenId := 0 }
        { SequenceNumber := 0, RequestId := 5 }
        (NodeId.mk ObjectIds.PublishRequest_Encoding_DefaultBinary)
        { RequestHandle := 20 } spDefault =
      Except.ok ({ emptyQueueState with publishdata_queue := [slot20] }, []) ∧
    (∃ s' m, forward_publish_response queuedState 102 = Except.ok (s', [m]) ∧
      s'.publishdata_queue = []) ∧
    forward_publish_response emptyQueueState 103 = Except.ok (emptyQueueState, []) :=
  ⟨publish_queue_push_pop.1 sampleIServer emptyQueueState { TokenId := 0 }
      { SequenceNumber := 0, RequestId := 5 } { RequestHandle := 20 } spDefault
      sampleSession rfl,
   publish_queue_push_pop.2.1 queuedState 102 slot20 [] sampleChannel rfl rfl,
   publish_queue_push_pop.2.2 emptyQueueState 103 rfl⟩

/-- C6: `_open_secure_channel` on any request (Issue or Renew) produces a
record whose `CreatedAt` is the current time, whose `RevisedLifetime` is
exactly the requested lifetime (no capping), whose server nonce is the
concatenation of the two 16-byte uuid draws (hence at least 32 bytes), and
whose token id is nonzero; on a Renew of an existing channel the token id is
the old one incremented by exactly 1 (so it changes), and on an Issue the
channel id is the one obtained from the internal server. -/
theorem open_secure_channel_record_fields (iserver : InternalServer)
    (channel0 : Option OpenSecureChannelResult)
    (params : OpenSecureChannelParameters) (env_now : Nat) (r1 r2 : List Nat)
    (ch : OpenSecureChannelResult)
    (h1 : r1.length = 16) (h2 : r2.length = 16)
    (hok : _open_secure_channel iserver channel0 params env_now r1 r2 = Except.ok ch) :
    ch.SecurityToken.CreatedAt = env_now ∧
    ch.SecurityToken.RevisedLifetime = params.RequestedLifetime ∧
    32 ≤ ch.ServerNonce.length ∧
    ch.SecurityToken.TokenId ≠ 0 ∧
    (∀ old, channel0 = some old →
      params.RequestType = SecurityTokenRequestType.Renew →
      ch.SecurityToken.TokenId = old.SecurityToken.TokenId + 1) ∧
    (params.RequestType = SecurityTokenRequestType.Issue →
      ch.SecurityToken.ChannelId = iserver.get_new_channel_id) := by
  rcases params with ⟨rt, lifetime⟩
  cases rt with
  | Issue =>
      rw [_open_secure_channel.eq_def, if_pos rfl] at hok
      cases hok
      refine ⟨rfl, rfl, ?_, Nat.succ_ne_zero _, ?_, fun _ => rfl⟩
      · rw [List.length_append, h1, h2]
      · intro old hold hrt
        cases hrt
  | Renew =>
      rw [_open_secure_channel.eq_def, if_neg (by intro h; cases h)] at hok
      cases channel0 with
      | none => cases hok
      | some old =>
          cases hok
          refine ⟨rfl, rfl, ?_, Nat.succ_ne_zero _, ?_, ?_⟩
          · rw [List.length_append, h1, h2]
          · intro old2 hold2 hrt
            cases hold2
            rfl
          · intro hrt
            cases hrt

/-- The channel record before a renewal (token id 14, channel id 4). -/
def preChannel : OpenSecureChannelResult :=
  { SecurityToken :=
      { TokenId := 14, ChannelId := 4, RevisedLifetime := 600000, CreatedAt := 99 },
    ServerNonce := [] }

/-- The channel record produced by renewing `preChannel` at time 123 with
requested lifetime 700000. -/
def renewedChannel : OpenSecureChannelResult :=
  { SecurityToken :=
      { TokenId := 15, ChannelId := 4, RevisedLifetime := 700000, CreatedAt := 123 },
    ServerNonce := List.replicate 16 7 ++ List.replicate 16 8 }

/-- C6 witness: `open_secure_channel_record_fields` at a concrete Renew of
`preChannel`, with two concrete 16-byte nonce draws. -/
theorem open_secure_channel_record_fields_witness :
    renewedChannel.SecurityToken.CreatedAt = 123 ∧
    renewedChannel.SecurityToken.RevisedLifetime = 700000 ∧
    32 ≤ renewedChannel.ServerNonce.length ∧
    renewedChannel.SecurityToken.TokenId ≠ 0 ∧
    (∀ old, some preChannel = some old →
      SecurityTokenRequestType.Renew = SecurityTokenRequestType.Renew →
      renewedChannel.SecurityToken.TokenId = old.SecurityToken.TokenId + 1) ∧
    (SecurityTokenRequestType.Renew = SecurityTokenRequestType.Issue →
      renewedChannel.SecurityToken.ChannelId = sampleIServer.get_new_channel_id) :=
  open_secure_channel_record_fields sampleIServer (some preChannel)
    { RequestType := SecurityTokenRequestType.Renew, RequestedLifetime := 700000 }
    123 (List.replicate 16 7) (List.replicate 16 8) renewedChannel rfl rfl rfl

/-- C7: an ActivateSession request never crashes the processor.  With no
session bound the reply is an ActivateSessionResponse whose Parameters is the
BadSessionIdInvalid status code; with a bound session the Parameters is the
value `session.activate_session(params)` returns. -/
theorem activate_session_no_crash (iserver : InternalServer) (s : ProcState)
    (a : AlgorithmHeader) (q : SequenceHeader) (rh : RequestHeader)
    (sp : ServiceParams) (ch : OpenSecureChannelResult)
    (hch : s.channel = some ch) :
    (s.session = none →
      process_message iserver s a q
          (NodeId.mk ObjectIds.ActivateSessionRequest_Encoding_DefaultBinary) rh sp =
        Except.ok ({ s with seq_number := s.seq_number + 1 },
          [{ msgtype := MessageType.SecureMessage, chunktype := ChunkType.Single,
             channelId := ch.SecurityToken.ChannelId, tokenId := ch.SecurityToken.TokenId,
             seqNumber := s.seq_number, requestId := q.RequestId,
             requestHandle := rh.RequestHandle,
             body := ResponseBody.ActivateSessionResponse
               StatusCodes.BadSessionIdInvalid }])) ∧
    (∀ sess, s.session = some sess →
      process_message iserver s a q
          (NodeId.mk ObjectIds.ActivateSessionRequest_Encoding_DefaultBinary) rh sp =
        Except.ok ({ s with seq_number := s.seq_number + 1 },
          [{ msgtype := MessageType.SecureMessage, chunktype := ChunkType.Single,
             channelId := ch.SecurityToken.ChannelId, tokenId := ch.SecurityToken.TokenId,
             seqNumber := s.seq_number, requestId := q.RequestId,
             requestHandle := rh.RequestHandle,
             body := ResponseBody.ActivateSessionResponse
               (sess.activate_session sp.params) }])) := by
  constructor
  · intro hs
    rw [process_message.eq_def, if_neg (by decide), if_neg (by decide), if_pos rfl, hs]
    simp only [send_response1, send_response, hch, hs]
  · intro sess hs
    rw [process_message.eq_def, if_neg (by decide), if_neg (by decide), if_pos rfl, hs]
    simp only [send_response1, send_response, hch, hs]

/-- A steady-state processor state with an open channel but no session. -/
def noSessionState : ProcState :=
  { name := 0, session := none, channel := some sampleChannel,
    publishdata_queue := [], seq_number := 1 }

/-- C7 witness: both halves of `activate_session_no_crash` at concrete
states - no session bound, and `sampleSession` bound. -/
theorem activate_session_no_crash_witness :
    process_message sampleIServer noSessionState { TokenId := 0 }
        { SequenceNumber := 0, RequestId := 3 }
        (NodeId.mk ObjectIds.ActivateSessionRequest_Encoding_DefaultBinary)
        { RequestHandle := 8 } spDefault =
      Except.ok ({ noSessionState with seq_number := noSessionState.seq_number + 1 },
        [{ msgtype := MessageType.SecureMessage, chunktype := ChunkType.Single,
           channelId := sampleChannel.SecurityToken.ChannelId,
           tokenId := sampleChannel.SecurityToken.TokenId,
           seqNumber := noSessionState.seq_number, requestId := 3,
           requestHandle := 8,
           body := ResponseBody.ActivateSessionResponse
             StatusCodes.BadSessionIdInvalid }]) ∧
    process_message sampleIServer emptyQueueState { TokenId := 0 }
        { SequenceNumber := 0, RequestId := 3 }
        (NodeId.mk ObjectIds.ActivateSessionRequest_Encoding_DefaultBinary)
        { RequestHandle := 8 } spDefault =
      Except.ok ({ emptyQueueState with seq_number := emptyQueueState.seq_number + 1 },
        [{ msgtype := MessageType.SecureMessage, chunktype := ChunkType.Single,
           channelId := sampleChannel.SecurityToken.ChannelId,
           tokenId := sampleChannel.SecurityToken.TokenId,
           seqNumber := emptyQueueState.seq_number, requestId := 3,
           requestHandle := 8,
           body := ResponseBody.ActivateSessionResponse
             (sampleSession.activate_session spDefault.params) }]) :=
  ⟨(activate_session_no_crash sampleIServer noSessionState { TokenId := 0 }
      { SequenceNumber := 0, RequestId := 3 } { RequestHandle := 8 } spDefault
      sampleChannel rfl).1 rfl,
   (activate_session_no_crash sampleIServer emptyQueueState { TokenId := 0 }
      { SequenceNumber := 0, RequestId := 3 } { RequestHandle := 8 } spDefault
      sampleChannel rfl).2 sampleSession rfl⟩

/-- The numeric type ids of the session-scoped services that dereference
`self.session` unconditionally (everything except CreateSession,
ActivateSession and GetEndpoints). -/
def sessionScopedIds : List Nat :=
  [ObjectIds.CloseSessionRequest_Encoding_DefaultBinary,
   ObjectIds.ReadRequest_Encoding_DefaultBinary,
   ObjectIds.WriteRequest_Encoding_DefaultBinary,
   ObjectIds.BrowseRequest_Encoding_DefaultBinary,
   ObjectIds.TranslateBrowsePathsToNodeIdsRequest_Encoding_DefaultBinary,
   ObjectIds.AddNodesRequest_Encoding_DefaultBinary,
   ObjectIds.CreateSubscriptionRequest_Encoding_DefaultBinary,
   ObjectIds.DeleteSubscriptionsRequest_Encoding_DefaultBinary,
   ObjectIds.CreateMonitoredItemsRequest_Encoding_DefaultBinary,
   ObjectIds.DeleteMonitoredItemsRequest_Encoding_DefaultBinary,
   ObjectIds.PublishRequest_Encoding_DefaultBinary]

/-- C10: a bound session is a precondition for every session-scoped service
other than ActivateSession: receiving CloseSession, Read, Write, Browse,
TranslateBrowsePathsToNodeIds, AddNodes, CreateSubscription,
DeleteSubscriptions, CreateMonitoredItems, DeleteMonitoredItems or
PublishRequest while `session` is None makes the handler dereference the
absent session and raise, and no reply (neither a response nor a
ServiceFault) is sent for that request. -/
theorem session_scoped_without_session_raises (iserver : InternalServer)
    (s : ProcState) (a : AlgorithmHeader) (q : SequenceHeader)
    (rh : RequestHeader) (sp : ServiceParams) (tid : Nat)
    (hs : s.session = none) (htid : tid ∈ sessionScopedIds) :
    process_message iserver s a q (NodeId.mk tid) rh sp =
      Except.error ProcError.sessionNone := by
  fin_cases htid <;>
    · rw [process_message.eq_def]
      simp [NodeId.mk.injEq, ObjectIds.CloseSessionRequest_Encoding_DefaultBinary,
        ObjectIds.ReadRequest_Encoding_DefaultBinary,
        ObjectIds.WriteRequest_Encoding_DefaultBinary,
        ObjectIds.BrowseRequest_Encoding_DefaultBinary,
        ObjectIds.TranslateBrowsePathsToNodeIdsRequest_Encoding_DefaultBinary,
        ObjectIds.AddNodesRequest_Encoding_DefaultBinary,
        ObjectIds.CreateSubscriptionRequest_Encoding_DefaultBinary,
        ObjectIds.DeleteSubscriptionsRequest_Encoding_DefaultBinary,
        ObjectIds.CreateMonitoredItemsRequest_Encoding_DefaultBinary,
        ObjectIds.DeleteMonitoredItemsRequest_Encoding_DefaultBinary,
        ObjectIds.PublishRequest_Encoding_DefaultBinary,
        ObjectIds.CreateSessionRequest_Encoding_DefaultBinary,
        ObjectIds.ActivateSessionRequest_Encoding_DefaultBinary,
        ObjectIds.GetEndpointsRequest_Encoding_DefaultBinary, hs]

/-- C10 witness: `session_scoped_without_session_raises` at the concrete
no-session state for a CloseSession request. -/
theorem session_scoped_without_session_raises_witness :
    process_message sampleIServer { noSessionState with channel := none } { TokenId := 0 }
        { SequenceNumber := 0, RequestId := 2 }
        (NodeId.mk ObjectIds.CloseSessionRequest_Encoding_DefaultBinary)
        { RequestHandle := 9 } spDefault =
      Except.error ProcError.sessionNone :=
  session_scoped_without_session_raises sampleIServer
    { noSessionState with channel := none } { TokenId := 0 }
    { SequenceNumber := 0, RequestId := 2 } { RequestHandle := 9 } spDefault
    ObjectIds.CloseSessionRequest_Encoding_DefaultBinary rfl (by decide)
